import Mathlib

/-!
Shallow embedding of `binproto2/protocols.py` (Marlin binary protocol host
driver).  Bytes are modelled as `Nat` (values `< 256` on the wire), Python
`int` fields as `Int`, byte strings as `List Nat`.  Serial I/O, threading and
wall-clock timeouts are replaced by explicit parameters: the receive worker's
queue of `(token, data)` response pairs is passed as a list, and `_send`'s
retry loop consumes a `schedule : List (List (String × String))` whose `i`-th
entry is the batch of responses available during attempt `i` (an empty batch
models the inner `ReadTimeout`; an exhausted schedule models the outer
deadline, which raises `ConnectionLost`).  Python exceptions are modelled as
an `Option Err` result paired with the state at the moment of the raise, so
that mutations performed before a raise are preserved, as in the source.
-/

/-- Exceptions that the modelled code can raise. `valueError`, `keyError` and
`structError` stand for the built-in Python exceptions escaping `int()`,
dictionary lookup and `struct.pack` respectively. -/
inductive Err where
  | payloadOverflow
  | synchronizationError
  | fatalError
  | readTimeout
  | connectionLost
  | valueError
  | keyError
  | structError
deriving DecidableEq, Repr

/-- Model of Python `int(s)` restricted to the response grammar: an optional
sign followed by decimal digits (whitespace and underscore acceptance of the
full builtin is not modelled; responses such as `ok <n>` carry plain
decimals).  Returns `none` where `int()` raises `ValueError`. -/
def digitsVal (l : List Char) : Option Nat :=
  if l ≠ [] ∧ l.all (fun c => c.isDigit) then
    some (l.foldl (fun a c => a * 10 + (c.toNat - 48)) 0)
  else none

def pyInt (s : String) : Option Int :=
  match s.toList with
  | '-' :: rest => (digitsVal rest).map (fun n => -(n : Int))
  | '+' :: rest => (digitsVal rest).map (fun n => (n : Int))
  | l => (digitsVal l).map (fun n => (n : Int))

/-- Model of Python `str.split(',')`: split on every comma, keeping empty
fields (`"".split(',') == ['']`). -/
def splitCommaChars (l : List Char) : List (List Char) :=
  match l with
  | [] => [[]]
  | c :: rest =>
    if c = ',' then [] :: splitCommaChars rest
    else
      match splitCommaChars rest with
      | [] => [[c]]
      | h :: t => (c :: h) :: t

def pySplitComma (s : String) : List String :=
  (splitCommaChars s.toList).map (fun cs => String.mk cs)

/-- `_pack_int8`: `struct.pack("<B", value)`; raises (`none`) out of range. -/
def _pack_int8 (value : Int) : Option (List Nat) :=
  if 0 ≤ value ∧ value < 256 then some [value.toNat] else none

/-- `_pack_int16`: `struct.pack("<H", value)`, little-endian. -/
def _pack_int16 (value : Int) : Option (List Nat) :=
  if 0 ≤ value ∧ value < 65536 then some [value.toNat % 256, value.toNat / 256] else none

/-- `_pack_int4_2`: one byte from two 4-bit fields, high nibble `vh`. -/
def _pack_int4_2 (vh vl : Nat) : List Nat :=
  [((vh &&& 0xF) <<< 4) ||| (vl &&& 0xF)]

/-- Inner `checksum(cs, value)` of `_build_checksum`. -/
def _checksum_step (cs value : Nat) : Nat :=
  let cs_low := ((cs &&& 0xFF) + value) % 255
  ((((cs >>> 8) + cs_low) % 255) <<< 8) ||| cs_low

/-- `_build_checksum`: 16-bit modified Fletcher checksum over a byte buffer. -/
def _build_checksum (buffer : List Nat) : Nat :=
  buffer.foldl _checksum_step 0

/-- Mutable state of `Protocol` (`__init__`).  The serial port, logger,
timeouts, fault-injection knob, worker thread, response deque and application
registry are I/O or concurrency details abstracted out of the state; the
response queue and the registry appear instead as explicit parameters of
`_await_response` / `dispatch`.  `packet_status` and `protocol_version` are
first assigned only later in the source; they are carried here from the start
with initial placeholders `0` and `""`. -/
structure Protocol where
  block_size : Int
  max_block_size : Int
  errors : Nat
  sync : Int
  synchronized : Bool
  packet_status : Nat
  protocol_version : String
deriving DecidableEq, Repr

/-- Field values established by `Protocol.__init__(device, baud, bsize, timeout)`. -/
def Protocol.init (bsize : Int) : Protocol :=
  { block_size := bsize
    max_block_size := 0
    errors := 0
    sync := 0
    synchronized := false
    packet_status := 0
    protocol_version := "" }

/-- Token prefixes registered by `Protocol.__init__` for `_process_input`. -/
def Protocol.tokens : List String := ["ok", "rs", "ss", "fe"]

/-- `Protocol._build_packet`.  The overflow check precedes all packing; the
payload checksum (when the payload is non-empty) covers header, header
checksum and payload, exactly as in the source, and the start token
`0xB5AD` is prepended last and is covered by no checksum. -/
def Protocol._build_packet (self : Protocol) (protocol packet_type : Nat)
    (data : List Nat) : Except Err (List Nat) :=
  if (data.length : Int) > self.max_block_size then Except.error Err.payloadOverflow
  else
    let body : Option (List Nat) := do
      let b_sync ← _pack_int8 self.sync
      let b_meta := _pack_int4_2 protocol packet_type
      let b_len ← _pack_int16 (data.length : Int)
      let header := b_sync ++ b_meta ++ b_len
      let b_hcs ← _pack_int16 (_build_checksum header : Int)
      let with_header := header ++ b_hcs
      let full ←
        if data.length ≠ 0 then do
          let b_fcs ← _pack_int16 (_build_checksum (with_header ++ data) : Int)
          pure (with_header ++ data ++ b_fcs)
        else pure with_header
      let b_token ← _pack_int16 (0xB5AD : Int)
      pure (b_token ++ full)
    match body with
    | some packet_buffer => Except.ok packet_buffer
    | none => Except.error Err.structError

/-- `Protocol._response_ok`: an unparseable id is dropped silently; a
mismatched id raises `SynchronizationError` before any state change; a
matching id increments `sync` mod 256 and marks the packet acked. -/
def Protocol._response_ok (self : Protocol) (data : String) : Protocol × Option Err :=
  match pyInt data with
  | none => (self, none)
  | some packet_id =>
    if packet_id ≠ self.sync then (self, some Err.synchronizationError)
    else ({ self with sync := (self.sync + 1) % 256, packet_status := 1 }, none)

/-- `Protocol._response_resend`: `int(data)` is unguarded (a parse failure
raises `ValueError`); `errors` is incremented before any check; after
synchronization an id different from `sync` raises `SynchronizationError`. -/
def Protocol._response_resend (self : Protocol) (data : String) : Protocol × Option Err :=
  match pyInt data with
  | none => (self, some Err.valueError)
  | some packet_id =>
    let self := { self with errors := self.errors + 1 }
    if ¬ self.synchronized then (self, none)
    else if packet_id ≠ self.sync then (self, some Err.synchronizationError)
    else (self, none)

/-- `Protocol._response_stream_sync`: parses `"<sync>,<max_block_size>,<version>"`,
assigning fields in source order (so a parse failure after the first
assignment leaves `sync` already mutated, as in Python). -/
def Protocol._response_stream_sync (self : Protocol) (data : String) : Protocol × Option Err :=
  match pySplitComma data with
  | [sync_s, max_s, version_s] =>
    match pyInt sync_s with
    | none => (self, some Err.valueError)
    | some sync_v =>
      let self := { self with sync := sync_v }
      match pyInt max_s with
      | none => (self, some Err.valueError)
      | some max_v =>
        let self := { self with max_block_size := max_v }
        let self := { self with block_size :=
          if self.max_block_size < self.block_size then self.max_block_size
          else self.block_size }
        ({ self with protocol_version := version_s, packet_status := 1,
                     synchronized := true }, none)
  | _ => (self, some Err.valueError)

/-- `Protocol._response_fatal_error`. -/
def Protocol._response_fatal_error (self : Protocol) (data : String) : Protocol × Option Err :=
  (self, some Err.fatalError)

/-- The `switch` dictionary lookup of `_await_response`; a token outside the
four registered ones would raise `KeyError`. -/
def Protocol._switch (self : Protocol) (token data : String) : Protocol × Option Err :=
  if token = "ok" then Protocol._response_ok self data
  else if token = "rs" then Protocol._response_resend self data
  else if token = "ss" then Protocol._response_stream_sync self data
  else if token = "fe" then Protocol._response_fatal_error self data
  else (self, some Err.keyError)

/-- Drain loop of `Protocol._await_response`: pop and handle queued responses
until the queue is empty or a handler raises (the raise propagates with the
state mutated so far).  The preceding wait-for-nonempty with `ReadTimeout` is
modelled at the `_send` level by an empty batch in the schedule. -/
def Protocol._await_response (self : Protocol) (responses : List (String × String)) :
    Protocol × Option Err :=
  match responses with
  | [] => (self, none)
  | (token, data) :: rest =>
    match Protocol._switch self token data with
    | (s, some e) => (s, some e)
    | (s, none) => Protocol._await_response s rest

/-- Result of a `_send` call: the packets written to the serial port, the
final state, and the exception (if any) escaping the call. -/
structure SendResult where
  writes : List (List Nat)
  state : Protocol
  err : Option Err
deriving DecidableEq, Repr

/-- Retry loop of `Protocol._send` (`while self.packet_status == 0`), with the
outer deadline modelled as exhaustion of the schedule (raising
`ConnectionLost` before the next transmission, as the source checks the
deadline at the top of the loop), transmission appending the packet to
`writes`, an empty batch modelling the caught inner `ReadTimeout`
(incrementing `errors`), and a non-empty batch drained by `_await_response`,
whose exceptions escape the loop.  Fault injection (`simulate_errors`) is not
modelled: the claims concern `simulate_errors = 0`, where `_transmit_packet`
writes the frame unchanged. -/
def Protocol._send_loop (pkt : List Nat) (self : Protocol)
    (schedule : List (List (String × String))) : SendResult :=
  match schedule with
  | [] => ⟨[], self, some Err.connectionLost⟩
  | batch :: rest =>
    match batch with
    | [] =>
      let r := Protocol._send_loop pkt { self with errors := self.errors + 1 } rest
      ⟨pkt :: r.writes, r.state, r.err⟩
    | _ :: _ =>
      match Protocol._await_response self batch with
      | (s, some e) => ⟨[pkt], s, some e⟩
      | (s, none) =>
        if s.packet_status = 1 then ⟨[pkt], s, none⟩
        else
          let r := Protocol._send_loop pkt s rest
          ⟨pkt :: r.writes, r.state, r.err⟩

/-- `Protocol._send`: build the packet first (a builder exception escapes
before `packet_status` is reset and before anything is written), then run the
transmit/await loop. -/
def Protocol._send (self : Protocol) (protocol packet_type : Nat) (data : List Nat)
    (schedule : List (List (String × String))) : SendResult :=
  match Protocol._build_packet self protocol packet_type data with
  | Except.error e => ⟨[], self, some e⟩
  | Except.ok pkt => Protocol._send_loop pkt { self with packet_status := 0 } schedule

/-- `dispatch` of `_receive_worker`: walk the registrations in order; within a
registration try its tokens in order; on the first token that is a prefix of
the line deliver `(token, remainder)` to that registration's handler and
stop.  Handlers are modelled as labels of type `α`. -/
def dispatch {α : Type} (applications : List (List String × α)) (data : String) :
    Option (α × String × String) :=
  match applications with
  | [] => none
  | (tokens, callback) :: rest =>
    match tokens.find? (fun token => data.take token.length == token) with
    | some token => some (callback, token, data.drop token.length)
    | none => dispatch rest data

/-- `FileTransferProtocol.protocol_id`. -/
def FileTransferProtocol.protocol_id : Nat := 1

/-- `FileTransferProtocol.Packet` constants. -/
def FileTransferProtocol.Packet.QUERY : Nat := 0

def FileTransferProtocol.Packet.OPEN : Nat := 1

def FileTransferProtocol.Packet.CLOSE : Nat := 2

def FileTransferProtocol.Packet.WRITE : Nat := 3

def FileTransferProtocol.Packet.ABORT : Nat := 4

/-- Token prefixes registered by `FileTransferProtocol.__init__` for its
`_process_input` (verbatim from the source, including the `PTF:invalid`
spelling). -/
def FileTransferProtocol.tokens : List String :=
  ["PFT:success", "PFT:version:", "PFT:fail", "PFT:busy", "PFT:ioerror", "PTF:invalid"]

/-- The application registry after `Protocol.__init__` and
`FileTransferProtocol.__init__` have run, in registration order, with handler
labels standing for the two `_process_input` callbacks. -/
def registered_applications : List (List String × String) :=
  [(Protocol.tokens, "transport"), (FileTransferProtocol.tokens, "pft")]

/-- Outcome of the token comparison chain in `FileTransferProtocol.close`. -/
inductive CloseOutcome where
  | success
  | ioerror
  | noOpenFile
  | silent
deriving DecidableEq, Repr

/-- The branch taken by `FileTransferProtocol.close` on a received token:
`PFT:success` logs and returns, `PFT:ioerror` warns of a storage error,
`PFT:invalid` warns `No open file`, anything else falls through. -/
def FileTransferProtocol.close_outcome (token : String) : CloseOutcome :=
  if token = "PFT:success" then CloseOutcome.success
  else if token = "PFT:ioerror" then CloseOutcome.ioerror
  else if token = "PFT:invalid" then CloseOutcome.noOpenFile
  else CloseOutcome.silent

/-- Payload assembled by `FileTransferProtocol.open`: dummy flag byte,
compression flag byte, UTF-8 filename, NUL terminator. -/
def FileTransferProtocol.open_payload (filename : String) (compression dummy : Bool) :
    List Nat :=
  (if dummy then [1] else [0]) ++ (if compression then [1] else [0])
    ++ filename.toUTF8.toList.map (fun b => b.toNat) ++ [0]

/-- The payload slices written by the block loop of
`FileTransferProtocol.copy`: `blocks = floor((len + bs - 1) / bs)` and block
`i` is `data[bs*i : bs*i + bs]`. -/
def FileTransferProtocol.copy_writes (data : List Nat) (block_size : Nat) :
    List (List Nat) :=
  (List.range ((data.length + block_size - 1) / block_size)).map
    (fun i => (data.drop (block_size * i)).take block_size)

/-- Success-path trace of the packets `FileTransferProtocol.copy` hands to
`Transport._send`, as `(packet_type, payload)` pairs: `connect` sends one
QUERY, `open` sends one OPEN (no `PFT:busy` retry on the success path), the
block loop sends one WRITE per block, and `close` sends one CLOSE. -/
def FileTransferProtocol.copy_trace (data : List Nat) (block_size : Nat)
    (open_payload : List Nat) : List (Nat × List Nat) :=
  (FileTransferProtocol.Packet.QUERY, ([] : List Nat))
    :: (FileTransferProtocol.Packet.OPEN, open_payload)
    :: ((FileTransferProtocol.copy_writes data block_size).map
          (fun chunk => (FileTransferProtocol.Packet.WRITE, chunk))
        ++ [(FileTransferProtocol.Packet.CLOSE, ([] : List Nat))])

/-- Initial state used by scenario S3 of the specification: `sync = 0`,
`synchronized = true`. -/
def s3_state : Protocol :=
  { block_size := 512
    max_block_size := 512
    errors := 0
    sync := 0
    synchronized := true
    packet_status := 0
    protocol_version := "2.0" }

/-- Reference Fletcher-16 step, transcribed from the specification's words
(§4.1): per byte, `low = (low + b) mod 255` then `high = (high + low) mod 255`
with the updated `low`. -/
def checksum16_spec_step (lh : Nat × Nat) (value : Nat) : Nat × Nat :=
  ((lh.1 + value) % 255, (lh.2 + ((lh.1 + value) % 255)) % 255)

/-- Reference Fletcher-16 checksum, transcribed from the specification's
words: fold the step from `(0, 0)` and return `(high <<< 8) ||| low`. -/
def checksum16_spec (buffer : List Nat) : Nat :=
  let p := buffer.foldl checksum16_spec_step (0, 0)
  (p.2 <<< 8) ||| p.1

theorem and_255_eq_mod (x : Nat) : x &&& 255 = x % 256 := by
  have h := Nat.and_pow_two_sub_one_eq_mod x 8
  norm_num at h
  exact h

theorem shiftRight_8_eq_div (x : Nat) : x >>> 8 = x / 256 := by
  rw [Nat.shiftRight_eq_div_pow]

theorem shiftLeft_8_or (high low : Nat) (hl : low < 256) :
    (high <<< 8) ||| low = 256 * high + low := by
  have h := Nat.mul_add_lt_is_or (i := 8) (b := low) (by norm_num at hl ⊢; omega) high
  rw [Nat.shiftLeft_eq, Nat.mul_comm]
  norm_num at h ⊢
  omega

theorem checksum_step_pair (low high value : Nat) (hl : low < 256) :
    _checksum_step ((high <<< 8) ||| low) value
      = (((high + ((low + value) % 255)) % 255) <<< 8) ||| ((low + value) % 255) := by
  unfold _checksum_step
  rw [shiftLeft_8_or high low hl]
  have hm : (256 * high + low) % 256 = low := by omega
  have hd : (256 * high + low) / 256 = high := by omega
  rw [show (0xFF : Nat) = 255 from rfl, and_255_eq_mod, shiftRight_8_eq_div, hm, hd]

theorem checksum_fold_pair (buffer : List Nat) :
    ∀ low high : Nat, low < 256 →
      buffer.foldl _checksum_step ((high <<< 8) ||| low)
        = ((buffer.foldl checksum16_spec_step (low, high)).2 <<< 8)
            ||| (buffer.foldl checksum16_spec_step (low, high)).1 := by
  induction buffer with
  | nil => intro low high hl; simp
  | cons b rest ih =>
    intro low high hl
    rw [List.foldl_cons, List.foldl_cons, checksum_step_pair low high b hl]
    have hstep : checksum16_spec_step (low, high) b
        = ((low + b) % 255, (high + (low + b) % 255) % 255) := rfl
    rw [hstep]
    exact ih _ _ (by omega)

/-- C2: `_build_checksum` agrees with the modified Fletcher-16 reference
definition on every byte sequence (fold `(low, high)` from `(0, 0)`, per byte
`low = (low + b) mod 255` then `high = (high + low) mod 255`, result
`(high <<< 8) ||| low`); in particular the checksum of the empty sequence is
`0` and the checksum of the single byte `0x01` is `0x0101`. -/
theorem build_checksum_eq_fletcher_reference (buffer : List Nat) :
    _build_checksum buffer = checksum16_spec buffer
      ∧ _build_checksum [] = 0
      ∧ _build_checksum [1] = 0x0101 := by
  refine ⟨?_, rfl, rfl⟩
  have h := checksum_fold_pair buffer 0 0 (by norm_num)
  simpa [_build_checksum, checksum16_spec] using h

/-- C1: with `sync = 0` and an empty payload admitted by the block-size
check, `_build_packet(protocol = 0, packet_type = 1, payload = ∅)` returns
exactly `AD B5 00 01 00 00 csumL csumH`, where `csum` is the 16-bit checksum
of the header bytes `00 01 00 00` and `csumL`/`csumH` are its little-endian
bytes; that checksum is `0x0301`. -/
theorem build_packet_golden_frame (st : Protocol) (h0 : st.sync = 0)
    (h1 : 0 ≤ st.max_block_size) :
    Protocol._build_packet st 0 1 []
      = Except.ok [0xAD, 0xB5, 0x00, 0x01, 0x00, 0x00,
          _build_checksum [0x00, 0x01, 0x00, 0x00] % 256,
          _build_checksum [0x00, 0x01, 0x00, 0x00] / 256]
      ∧ _build_checksum [0x00, 0x01, 0x00, 0x00] = 0x0301 := by
  constructor
  · have hnot : ¬ ((List.length ([] : List Nat) : Int) > st.max_block_size) := by
      simpa using h1
    rw [Protocol._build_packet, if_neg hnot, h0]
    rfl
  · rfl

theorem build_packet_golden_frame_witness :
    Protocol._build_packet (Protocol.init 1024) 0 1 []
      = Except.ok [0xAD, 0xB5, 0x00, 0x01, 0x00, 0x00,
          _build_checksum [0x00, 0x01, 0x00, 0x00] % 256,
          _build_checksum [0x00, 0x01, 0x00, 0x00] / 256]
      ∧ _build_checksum [0x00, 0x01, 0x00, 0x00] = 0x0301 :=
  build_packet_golden_frame (Protocol.init 1024) rfl (by decide)

/-- C4 counterexample: with `sync = 0` and `synchronized = true`, the queue
`[(rs, "0"), (ok, "0")]` does NOT raise `SynchronizationError` on the first
entry — `_response_resend` raises only when the id differs from `sync`, and
here the id `0` equals `sync`, so the drain completes without any error. -/
theorem s3_resend_matching_id_raises_nothing :
    Protocol._response_resend s3_state "0" = ({ s3_state with errors := 1 }, none)
      ∧ (Protocol._await_response s3_state [("rs", "0"), ("ok", "0")]).2
          ≠ some Err.synchronizationError := by
  decide

/-- C4 (amended): with `sync = 0` and `synchronized = true`, draining
`[(rs, "0"), (ok, "0")]` raises nothing: the resend id `0` equals the current
`sync`, which the handler accepts after synchronization (incrementing
`errors`), and the following ok acks the packet, incrementing `sync` to `1`;
`_response_resend` raises `SynchronizationError` only when its id differs
from the current `sync`, as it does once `sync` has moved to `1`. -/
theorem s3_drain_result :
    Protocol._await_response s3_state [("rs", "0"), ("ok", "0")]
      = ({ s3_state with errors := 1, sync := 1, packet_status := 1 }, none)
      ∧ Protocol._response_resend { s3_state with sync := 1 } "0"
          = ({ s3_state with sync := 1, errors := 1 }, some Err.synchronizationError) := by
  decide

/-- C5: for every prior state, handling `(ss, "7,512,2.0")` sets `sync = 7`,
`max_block_size = 512`, `block_size = min(old block_size, 512)`, records
`protocol_version = "2.0"`, sets `synchronized = true` and marks the packet
acked; consequently `block_size ≤ max_block_size` holds in the resulting
state. -/
theorem stream_sync_updates (st : Protocol) :
    Protocol._response_stream_sync st "7,512,2.0"
      = ({ st with
            sync := 7,
            max_block_size := 512,
            block_size := if (512 : Int) < st.block_size then 512 else st.block_size,
            protocol_version := "2.0",
            packet_status := 1,
            synchronized := true }, none)
      ∧ (Protocol._response_stream_sync st "7,512,2.0").1.block_size
          = min st.block_size 512
      ∧ (Protocol._response_stream_sync st "7,512,2.0").1.block_size
          ≤ (Protocol._response_stream_sync st "7,512,2.0").1.max_block_size := by
  have hmain : Protocol._response_stream_sync st "7,512,2.0"
      = ({ st with
            sync := 7,
            max_block_size := 512,
            block_size := if (512 : Int) < st.block_size then 512 else st.block_size,
            protocol_version := "2.0",
            packet_status := 1,
            synchronized := true }, none) := by
    rfl
  refine ⟨hmain, ?_, ?_⟩
  · rw [hmain]
    dsimp
    split <;> omega
  · rw [hmain]
    dsimp
    split <;> omega

/-- C3: handling an `ok <n>` response with parseable `n` equal to the current
`sync` increments `sync` by exactly one modulo 256 and marks the in-flight
packet acked (`packet_status = 1`); with parseable `n` different from `sync`
it raises `SynchronizationError` and leaves the state (in particular `sync`)
unchanged; with an unparseable `n` it returns with the state unchanged and
without raising; in particular from `sync = 255` a matching ok wraps `sync`
to `0`. -/
theorem response_ok_cases (st : Protocol) (data : String) :
    (∀ n : Int, pyInt data = some n →
      (n = st.sync →
        Protocol._response_ok st data
          = ({ st with sync := (st.sync + 1) % 256, packet_status := 1 }, none))
      ∧ (n ≠ st.sync →
        Protocol._response_ok st data = (st, some Err.synchronizationError)))
    ∧ (pyInt data = none → Protocol._response_ok st data = (st, none))
    ∧ (st.sync = 255 → pyInt data = some 255 →
        (Protocol._response_ok st data).1.sync = 0
          ∧ (Protocol._response_ok st data).1.packet_status = 1) := by
  refine ⟨fun n hn => ⟨fun he => ?_, fun hne => ?_⟩, fun hn => ?_, fun h255 hn => ?_⟩
  · simp [Protocol._response_ok, hn, he]
  · simp [Protocol._response_ok, hn, hne]
  · simp [Protocol._response_ok, hn]
  · simp [Protocol._response_ok, hn, h255]

theorem response_ok_cases_witness :
    (Protocol._response_ok { Protocol.init 1024 with sync := 255 } "255").1.sync = 0
      ∧ (Protocol._response_ok { Protocol.init 1024 with sync := 255 } "255").1.packet_status
          = 1 :=
  (response_ok_cases { Protocol.init 1024 with sync := 255 } "255").2.2 rfl (by decide)

theorem send_overflow_helper (st : Protocol) (protocol packet_type : Nat)
    (data : List Nat) (schedule : List (List (String × String)))
    (h : (data.length : Int) > st.max_block_size) :
    Protocol._send st protocol packet_type data schedule
      = { writes := [], state := st, err := some Err.payloadOverflow } := by
  unfold Protocol._send Protocol._build_packet
  rw [if_pos h]

/-- C6: a `_send` whose payload is longer than the current `max_block_size`
raises `PayloadOverflow`, writes nothing to the serial link, and leaves the
whole Transport state (hence `sync`, `errors`, `block_size`, `synchronized`)
unchanged. -/
theorem send_payload_overflow (st : Protocol) (protocol packet_type : Nat)
    (data : List Nat) (schedule : List (List (String × String)))
    (h : (data.length : Int) > st.max_block_size) :
    Protocol._send st protocol packet_type data schedule
      = { writes := [], state := st, err := some Err.payloadOverflow } :=
  send_overflow_helper st protocol packet_type data schedule h

theorem send_payload_overflow_witness :
    Protocol._send (Protocol.init 1024) 1 3 [7] []
      = { writes := [], state := Protocol.init 1024, err := some Err.payloadOverflow } :=
  send_payload_overflow (Protocol.init 1024) 1 3 [7] [] (by decide)

/-- C7: `dispatch` delivers a line to the handler of the first registration,
in registration order, holding some token that is a prefix of the line,
passing `(matched_token, remainder)` and stopping there; in particular with
registrations `[("PFT:", A), ("PFT:version:", B)]` the line
`PFT:version:2.0:none` goes to `A`, and with the reverse order to `B`. -/
theorem dispatch_first_match :
    (∀ (pre : List (List String × String)) (tokens : List String) (cb : String)
       (post : List (List String × String)) (data tok : String),
       (∀ p ∈ pre, p.1.find? (fun t => data.take t.length == t) = none) →
       tokens.find? (fun t => data.take t.length == t) = some tok →
       dispatch (pre ++ (tokens, cb) :: post) data
         = some (cb, tok, data.drop tok.length))
    ∧ dispatch [(["PFT:"], "A"), (["PFT:version:"], "B")] "PFT:version:2.0:none"
        = some ("A", "PFT:", "version:2.0:none")
    ∧ dispatch [(["PFT:version:"], "B"), (["PFT:"], "A")] "PFT:version:2.0:none"
        = some ("B", "PFT:version:", "2.0:none") := by
  refine ⟨?_, by decide, by decide⟩
  intro pre
  induction pre with
  | nil =>
    intro tokens cb post data tok hpre hfind
    simp [dispatch, hfind]
  | cons p tail ih =>
    intro tokens cb post data tok hpre hfind
    obtain ⟨ptoks, pcb⟩ := p
    have h0 : ptoks.find? (fun t => data.take t.length == t) = none := by
      simpa using hpre (ptoks, pcb) (by simp)
    rw [List.cons_append, dispatch, h0]
    exact ih tokens cb post data tok (fun q hq => hpre q (by simp [hq])) hfind

theorem dispatch_first_match_witness :
    dispatch [((["ok"] : List String), "T")] "ok 5" = some ("T", "ok", " 5") :=
  dispatch_first_match.1 [] ["ok"] "T" [] "ok 5" "ok" (by simp) (by decide)

theorem dispatch_mem {α : Type} (apps : List (List String × α)) (data : String)
    (cb : α) (tok rest : String)
    (h : dispatch apps data = some (cb, tok, rest)) :
    ∃ entry ∈ apps, entry.2 = cb ∧ tok ∈ entry.1 := by
  induction apps with
  | nil => simp [dispatch] at h
  | cons p tail ih =>
    obtain ⟨ptoks, pcb⟩ := p
    rw [dispatch] at h
    cases hf : ptoks.find? (fun t => data.take t.length == t) with
    | some t =>
      rw [hf] at h
      simp only [Option.some.injEq, Prod.mk.injEq] at h
      obtain ⟨h1, h2, h3⟩ := h
      exact ⟨(ptoks, pcb), by simp, h1, h2 ▸ List.mem_of_find?_eq_some hf⟩
    | none =>
      rw [hf] at h
      obtain ⟨entry, hmem, hcb, htok⟩ := ih h
      exact ⟨entry, by simp [hmem], hcb, htok⟩

/-- C9: the registered token set of `FileTransferProtocol` contains the
misspelling `PTF:invalid` and not `PFT:invalid`, and every token the dispatch
loop can deliver to the FileTransferProtocol handler belongs to that
registered set; hence no delivered token equals `PFT:invalid` and the
`No open file` branch of `close` is unreachable for any peer line. -/
theorem pft_invalid_branch_unreachable :
    ("PFT:invalid" ∉ FileTransferProtocol.tokens)
    ∧ (∀ data tok rest,
        dispatch registered_applications data = some ("pft", tok, rest) →
        tok ∈ FileTransferProtocol.tokens
          ∧ tok ≠ "PFT:invalid"
          ∧ FileTransferProtocol.close_outcome tok ≠ CloseOutcome.noOpenFile) := by
  constructor
  · decide
  · intro data tok rest h
    obtain ⟨entry, hmem, hcb, htok⟩ := dispatch_mem registered_applications data "pft" tok rest h
    simp [registered_applications] at hmem
    rcases hmem with h1 | h2
    · rw [h1] at hcb
      simp at hcb
    · rw [h2] at htok
      refine ⟨htok, ?_⟩
      simp [FileTransferProtocol.tokens] at htok
      rcases htok with h | h | h | h | h | h <;> subst h <;> exact ⟨by decide, by decide⟩

theorem pft_invalid_branch_unreachable_witness :
    "PFT:success" ∈ FileTransferProtocol.tokens
      ∧ "PFT:success" ≠ "PFT:invalid"
      ∧ FileTransferProtocol.close_outcome "PFT:success" ≠ CloseOutcome.noOpenFile :=
  pft_invalid_branch_unreachable.2 "PFT:success" "PFT:success" "" (by decide)

/-- C8: copying a 4097-byte file with `block_size = 1024` and no compression
produces, on the file-transfer protocol, exactly one OPEN packet, then
exactly 5 WRITE packets whose payload sizes are 1024, 1024, 1024, 1024, 1 in
that order, then exactly one CLOSE packet (the trace is one QUERY, one OPEN,
the WRITE blocks in order, one CLOSE). -/
theorem copy_trace_blocks (data : List Nat) (open_payload : List Nat)
    (h : data.length = 4097) :
    (FileTransferProtocol.copy_writes data 1024).map List.length
        = [1024, 1024, 1024, 1024, 1]
    ∧ FileTransferProtocol.copy_trace data 1024 open_payload
        = (FileTransferProtocol.Packet.QUERY, [])
            :: (FileTransferProtocol.Packet.OPEN, open_payload)
            :: ((FileTransferProtocol.copy_writes data 1024).map
                  (fun chunk => (FileTransferProtocol.Packet.WRITE, chunk))
                ++ [(FileTransferProtocol.Packet.CLOSE, [])])
    ∧ ((FileTransferProtocol.copy_trace data 1024 open_payload).filter
         (fun e => e.1 == FileTransferProtocol.Packet.OPEN)).length = 1
    ∧ ((FileTransferProtocol.copy_trace data 1024 open_payload).filter
         (fun e => e.1 == FileTransferProtocol.Packet.CLOSE)).length = 1
    ∧ ((FileTransferProtocol.copy_trace data 1024 open_payload).filter
         (fun e => e.1 == FileTransferProtocol.Packet.WRITE)).map (fun e => e.2.length)
        = [1024, 1024, 1024, 1024, 1] := by
  have hw : FileTransferProtocol.copy_writes data 1024
      = [(data.drop 0).take 1024, (data.drop 1024).take 1024,
         (data.drop 2048).take 1024, (data.drop 3072).take 1024,
         (data.drop 4096).take 1024] := by
    unfold FileTransferProtocol.copy_writes
    rw [h]
    rfl
  have hlen : (FileTransferProtocol.copy_writes data 1024).map List.length
      = [1024, 1024, 1024, 1024, 1] := by
    rw [hw]
    simp [h]
  refine ⟨hlen, rfl, ?_, ?_, ?_⟩
  · rw [FileTransferProtocol.copy_trace, hw]
    simp [FileTransferProtocol.Packet.QUERY, FileTransferProtocol.Packet.OPEN,
      FileTransferProtocol.Packet.CLOSE, FileTransferProtocol.Packet.WRITE,
      List.filter]
  · rw [FileTransferProtocol.copy_trace, hw]
    simp [FileTransferProtocol.Packet.QUERY, FileTransferProtocol.Packet.OPEN,
      FileTransferProtocol.Packet.CLOSE, FileTransferProtocol.Packet.WRITE,
      List.filter]
  · rw [FileTransferProtocol.copy_trace, hw]
    simp [FileTransferProtocol.Packet.QUERY, FileTransferProtocol.Packet.OPEN,
      FileTransferProtocol.Packet.CLOSE, FileTransferProtocol.Packet.WRITE,
      List.filter, h]

theorem copy_trace_blocks_witness :
    (FileTransferProtocol.copy_writes (List.replicate 4097 0) 1024).map List.length
      = [1024, 1024, 1024, 1024, 1] :=
  (copy_trace_blocks (List.replicate 4097 0) [] (by rw [List.length_replicate])).1

/-- C10: `max_block_size` is `0` at construction for every `bsize`; the
`ok`, `rs` and `fe` handlers never change it (only the stream-sync handler
does); and every `_send` with a non-empty payload from a state with
`max_block_size = 0` — hence every FileTransfer OPEN or WRITE issued before
the first stream-sync response is processed, OPEN payloads being always
non-empty — raises `PayloadOverflow`, writing nothing and leaving the state
unchanged. -/
theorem send_before_stream_sync_overflows :
    (∀ bsize : Int, (Protocol.init bsize).max_block_size = 0)
    ∧ (∀ (st : Protocol) (data : String),
        (Protocol._response_ok st data).1.max_block_size = st.max_block_size
        ∧ (Protocol._response_resend st data).1.max_block_size = st.max_block_size
        ∧ (Protocol._response_fatal_error st data).1.max_block_size = st.max_block_size)
    ∧ (∀ (st : Protocol) (protocol packet_type : Nat) (data : List Nat)
         (schedule : List (List (String × String))),
        st.max_block_size = 0 → data ≠ [] →
        Protocol._send st protocol packet_type data schedule
          = { writes := [], state := st, err := some Err.payloadOverflow })
    ∧ (∀ (filename : String) (compression dummy : Bool),
        FileTransferProtocol.open_payload filename compression dummy ≠ []) := by
  refine ⟨fun bsize => rfl, fun st data => ⟨?_, ?_, rfl⟩, ?_, ?_⟩
  · cases hp : pyInt data <;> simp [Protocol._response_ok, hp] <;> split <;> rfl
  · cases hp : pyInt data <;> simp [Protocol._response_resend, hp]
    split
    · rfl
    · split <;> rfl
  · intro st protocol packet_type data schedule hmbs hne
    apply send_overflow_helper
    rw [hmbs]
    have : 0 < data.length := List.length_pos.mpr hne
    omega
  · intro filename compression dummy
    cases compression <;> cases dummy <;> simp [FileTransferProtocol.open_payload]

theorem send_before_stream_sync_overflows_witness :
    Protocol._send (Protocol.init 1024) 1 1 [7] []
      = { writes := [], state := Protocol.init 1024, err := some Err.payloadOverflow } :=
  send_before_stream_sync_overflows.2.2.1 (Protocol.init 1024) 1 1 [7] [] rfl (by decide)
